import Mathlib

/-!
Verification of the payment validation and entitlement lifecycle of
pay-via-stars, shallowly embedded from `src/main_2x.py` (Aiogram 2.x
variant) and `src/main_3x.py` (Aiogram 3.x variant).

Modelling conventions:
- Timestamps are natural numbers counting seconds; `datetime.now()` becomes
  an explicit `now` parameter, and `timedelta(days=d)` becomes
  `d * secondsPerDay`.
- Python dictionaries (`active_subscriptions`, `payment_history`) become
  total functions into `Option`.
- Python `s.startswith(p)` becomes a list-of-characters IsPrefix test, and
  Python substring containment `n in s` becomes an IsInfix test; both are
  the exact semantics of the Python operations on strings.
- The handlers' messaging side effects (answering queries, sending
  messages, logging) are outside the store model; only the decision and the
  store transition are embedded.
-/

/-- Configuration constant `PREMIUM_DURATION_DAYS = 1` shared by both files. -/
def PREMIUM_DURATION_DAYS : Nat := 1

/-- Configuration constant `STAR_PRICE = 10` shared by both files. -/
def STAR_PRICE : Nat := 10

/-- Configuration constant `MIN_PAYMENT = 1` shared by both files. -/
def MIN_PAYMENT : Nat := 1

/-- Configuration constant `MAX_PAYMENT = 2500` shared by both files. -/
def MAX_PAYMENT : Nat := 2500

/-- Seconds in one day: the granularity at which `timedelta(days=d)` is
modelled. -/
def secondsPerDay : Nat := 86400

/-- Python `s.startswith(p)`: `p`'s characters are a prefix of `s`'s. -/
def pyStartsWith (s p : String) : Bool :=
  decide (p.toList <+: s.toList)

/-- Python `needle in hay` on strings: substring containment. -/
def pyContains (hay needle : String) : Bool :=
  decide (needle.toList <:+: hay.toList)

/-- One value of `payment_history` in `main_2x.py` `record_payment`. -/
structure PaymentRecord where
  user_id : Nat
  amount : Nat
  currency : String
  timestamp : Nat
  status : String
deriving DecidableEq

/-- State of `PaymentManager` in `main_2x.py`: the `active_subscriptions`
dict (user id to expiry timestamp) and the `payment_history` dict (provider
charge id to record). -/
structure PaymentManager where
  active_subscriptions : Nat → Option Nat
  payment_history : String → Option PaymentRecord

/-- `PaymentManager.__init__`: both dicts empty. -/
def PaymentManager.init : PaymentManager :=
  { active_subscriptions := fun _ => none, payment_history := fun _ => none }

/-- `PaymentManager.activate_premium(user_id, days)` at wall time `now`:
stores `now + days` (in seconds) as the user's expiry and returns it. -/
def activate_premium (s : PaymentManager) (user_id days now : Nat) :
    PaymentManager × Nat :=
  let expiry_date := now + days * secondsPerDay
  ({ s with
      active_subscriptions := fun u =>
        if u = user_id then some expiry_date else s.active_subscriptions u },
   expiry_date)

/-- `PaymentManager.check_premium_status(user_id)` at wall time `now`:
false when no entry exists, else `now < expiry`. -/
def check_premium_status (s : PaymentManager) (user_id now : Nat) : Bool :=
  match s.active_subscriptions user_id with
  | none => false
  | some expiry => decide (now < expiry)

/-- `PaymentManager.get_expiry_date(user_id)`: the stored expiry, if any. -/
def get_expiry_date (s : PaymentManager) (user_id : Nat) : Option Nat :=
  s.active_subscriptions user_id

/-- `PaymentManager.record_payment(payment_id, user_id, amount, currency)`
at wall time `now`: keyed write into `payment_history`. -/
def record_payment (s : PaymentManager) (payment_id : String)
    (user_id amount : Nat) (currency : String) (now : Nat) : PaymentManager :=
  { s with
      payment_history := fun p =>
        if p = payment_id then
          some ⟨user_id, amount, currency, now, "completed"⟩
        else s.payment_history p }

/-- The `validation_checks` boolean list of `process_pre_checkout_query` in
`main_2x.py`: currency, inclusive amount bounds, payload prefix
`"premium_subscription_"`, and `str(user_id) in payload`. -/
def validation_checks (currency : String) (amount : Nat) (payload : String)
    (user_id : Nat) : List Bool :=
  [decide (currency = "XTR"),
   decide (MIN_PAYMENT ≤ amount ∧ amount ≤ MAX_PAYMENT),
   pyStartsWith payload "premium_subscription_",
   pyContains payload (toString user_id)]

/-- The accept/reject decision of `process_pre_checkout_query` in
`main_2x.py`: `all(validation_checks)`. -/
def process_pre_checkout_query (currency : String) (amount : Nat)
    (payload : String) (user_id : Nat) : Bool :=
  (validation_checks currency amount payload user_id).all (fun b => b)

/-- The accept/reject decision (`is_valid`) of `pre_checkout_query` in
`main_3x.py`: currency, inclusive amount bounds, and payload prefix
`"premium_"`; no payer-containment check. -/
def pre_checkout_query (currency : String) (amount : Nat)
    (payload : String) : Bool :=
  decide (currency = "XTR") &&
  decide (MIN_PAYMENT ≤ amount ∧ amount ≤ MAX_PAYMENT) &&
  pyStartsWith payload "premium_"

/-- The fields of `message.successful_payment` both handlers read. -/
structure CompletedPayment where
  total_amount : Nat
  currency : String
  invoice_payload : String
  provider_payment_charge_id : String
deriving DecidableEq

/-- What a successful-payment handler reports back: acceptance and, on
acceptance, the expiry it announces. -/
structure ActivationOutcome where
  ok : Bool
  expiresAt : Option Nat
deriving DecidableEq

/-- `successful_payment_handler` in `main_2x.py` at wall time `now`, for the
paying user `user_id` (`message.from_user.id`): if the currency is `"XTR"`
and the amount is within the inclusive bounds, record the payment keyed by
`provider_payment_charge_id` and activate premium for
`PREMIUM_DURATION_DAYS`; otherwise leave the store untouched and report
failure. -/
def successful_payment_handler (s : PaymentManager) (user_id : Nat)
    (payment : CompletedPayment) (now : Nat) : PaymentManager × ActivationOutcome :=
  if payment.currency = "XTR" ∧
      MIN_PAYMENT ≤ payment.total_amount ∧ payment.total_amount ≤ MAX_PAYMENT then
    let s1 := record_payment s payment.provider_payment_charge_id user_id
      payment.total_amount payment.currency now
    let r := activate_premium s1 user_id PREMIUM_DURATION_DAYS now
    (r.1, { ok := true, expiresAt := some r.2 })
  else
    (s, { ok := false, expiresAt := none })

/-- State of `PaymentHandler` in `main_3x.py`: only the
`active_subscriptions` dict. -/
structure PaymentHandler where
  active_subscriptions : Nat → Option Nat

/-- `PaymentHandler.__init__`: empty dict. -/
def PaymentHandler.init : PaymentHandler :=
  { active_subscriptions := fun _ => none }

/-- `PaymentHandler.add_subscription(user_id, days)` at wall time `now`. -/
def add_subscription (s : PaymentHandler) (user_id days now : Nat) :
    PaymentHandler × Nat :=
  let expiry_date := now + days * secondsPerDay
  ({ active_subscriptions := fun u =>
      if u = user_id then some expiry_date else s.active_subscriptions u },
   expiry_date)

/-- `PaymentHandler.is_premium_active(user_id)` at wall time `now`. -/
def is_premium_active (s : PaymentHandler) (user_id now : Nat) : Bool :=
  match s.active_subscriptions user_id with
  | none => false
  | some expiry => decide (now < expiry)

/-- `successful_payment` in `main_3x.py` at wall time `now`, for the paying
user `user_id`: same validation as the 2.x handler, but activation via
`add_subscription` and no payment record. -/
def successful_payment (s : PaymentHandler) (user_id : Nat)
    (payment : CompletedPayment) (now : Nat) : PaymentHandler × ActivationOutcome :=
  if payment.currency = "XTR" ∧
      MIN_PAYMENT ≤ payment.total_amount ∧ payment.total_amount ≤ MAX_PAYMENT then
    let r := add_subscription s user_id PREMIUM_DURATION_DAYS now
    (r.1, { ok := true, expiresAt := some r.2 })
  else
    (s, { ok := false, expiresAt := none })

/-! ## Shared characterisation lemmas -/

/-- The 2.x pre-checkout decision, characterised: all four checks. -/
theorem process_pre_checkout_query_accepts_iff (currency : String)
    (amount : Nat) (payload : String) (user_id : Nat) :
    process_pre_checkout_query currency amount payload user_id = true ↔
      (currency = "XTR" ∧ MIN_PAYMENT ≤ amount ∧ amount ≤ MAX_PAYMENT ∧
       "premium_subscription_".toList <+: payload.toList ∧
       (toString user_id).toList <:+: payload.toList) := by
  simp [process_pre_checkout_query, validation_checks, pyStartsWith,
    pyContains, and_assoc]

/-- The 3.x pre-checkout decision, characterised: three checks, no
payer-containment. -/
theorem pre_checkout_query_accepts_iff (currency : String) (amount : Nat)
    (payload : String) :
    pre_checkout_query currency amount payload = true ↔
      (currency = "XTR" ∧ MIN_PAYMENT ≤ amount ∧ amount ≤ MAX_PAYMENT ∧
       "premium_".toList <+: payload.toList) := by
  simp [pre_checkout_query, pyStartsWith, and_assoc]

/-! ## C1 -/

/-- C1 counterexample: the 3.x pre-checkout decision at currency `"XTR"`,
amount `10`, payload `"premium_99_1day"`, payer `42` accepts even though the
payload does not contain `"42"`, so acceptance is not equivalent to the four
stated conditions. -/
theorem C1_counterexample :
    ¬ (pre_checkout_query "XTR" 10 "premium_99_1day" = true ↔
        ("XTR" = "XTR" ∧ MIN_PAYMENT ≤ 10 ∧ 10 ≤ MAX_PAYMENT ∧
         "premium_".toList <+: "premium_99_1day".toList ∧
         (toString (42 : Nat)).toList <:+: "premium_99_1day".toList)) := by
  decide

/-- C1 (amended): the 2.x pre-checkout validation accepts iff all four
conditions hold (currency `"XTR"`, inclusive bounds, payload prefix
`"premium_subscription_"`, payload contains the stringified payer id); the
3.x pre-checkout validation accepts iff only the first three hold, with
prefix `"premium_"` and no payer-containment check. -/
theorem C1_pre_checkout_validation (currency : String) (amount : Nat)
    (payload : String) (user_id : Nat) :
    (process_pre_checkout_query currency amount payload user_id = true ↔
      (currency = "XTR" ∧ MIN_PAYMENT ≤ amount ∧ amount ≤ MAX_PAYMENT ∧
       "premium_subscription_".toList <+: payload.toList ∧
       (toString user_id).toList <:+: payload.toList)) ∧
    (pre_checkout_query currency amount payload = true ↔
      (currency = "XTR" ∧ MIN_PAYMENT ≤ amount ∧ amount ≤ MAX_PAYMENT ∧
       "premium_".toList <+: payload.toList)) :=
  ⟨process_pre_checkout_query_accepts_iff currency amount payload user_id,
   pre_checkout_query_accepts_iff currency amount payload⟩

/-! ## C8 -/

/-- C8 counterexample: at currency `"XTR"`, amount `10`, payload
`"premium_42_1day"`, payer `42`, the 3.x decision accepts while the 2.x
decision rejects, so the two pre-checkout decisions are not equal. -/
theorem C8_counterexample :
    pre_checkout_query "XTR" 10 "premium_42_1day" = true ∧
    process_pre_checkout_query "XTR" 10 "premium_42_1day" 42 = false := by
  decide

/-- C8 (amended): the 3.x pre-checkout check is strictly weaker than the
2.x one — every request the 2.x validation accepts, the 3.x validation also
accepts; the converse fails because 3.x omits the payer-containment check
and requires only the shorter prefix `"premium_"`. -/
theorem C8_2x_accept_implies_3x_accept (currency : String) (amount : Nat)
    (payload : String) (user_id : Nat)
    (h : process_pre_checkout_query currency amount payload user_id = true) :
    pre_checkout_query currency amount payload = true := by
  rw [process_pre_checkout_query_accepts_iff] at h
  rw [pre_checkout_query_accepts_iff]
  obtain ⟨h1, h2, h3, h4, h5⟩ := h
  exact ⟨h1, h2, h3, List.IsPrefix.trans (by decide) h4⟩

/-- C8 witness: the 2.x validation accepts currency `"XTR"`, amount `10`,
payload `"premium_subscription_42_1"`, payer `42`, hence so does the 3.x
validation. -/
theorem C8_2x_accept_implies_3x_accept_witness :
    pre_checkout_query "XTR" 10 "premium_subscription_42_1" = true :=
  C8_2x_accept_implies_3x_accept "XTR" 10 "premium_subscription_42_1" 42
    (by decide)

/-! ## C2 -/

/-- C2: delivering the same completed payment (same
`provider_payment_charge_id` `"ch_1"`) twice to the 2.x handler activates
twice: after the first delivery at time `0` the stored expiry is `86400`,
and the second delivery at time `100` overwrites it to `86500`, so the
store state is not idempotent under reprocessing — the code performs no
charge-id dedup check before activating or recording. -/
theorem C2_replay_not_idempotent :
    get_expiry_date
      (successful_payment_handler PaymentManager.init 42
        ⟨10, "XTR", "premium_subscription_42_1", "ch_1"⟩ 0).1 42
      = some 86400 ∧
    get_expiry_date
      (successful_payment_handler
        (successful_payment_handler PaymentManager.init 42
          ⟨10, "XTR", "premium_subscription_42_1", "ch_1"⟩ 0).1 42
        ⟨10, "XTR", "premium_subscription_42_1", "ch_1"⟩ 100).1 42
      = some 86500 := by
  decide

/-! ## C3 -/

/-- C3: both completed-payment handlers accept iff the currency is `"XTR"`
and the amount is within the inclusive bounds (payload and payer are not
re-checked), and on acceptance the payer's stored expiry and the reported
`expiresAt` both equal the handling time plus `PREMIUM_DURATION_DAYS`, with
`ok = true`. -/
theorem C3_completed_payment_accept (s2 : PaymentManager)
    (s3 : PaymentHandler) (user_id : Nat) (payment : CompletedPayment)
    (now : Nat) :
    ((successful_payment_handler s2 user_id payment now).2.ok = true ↔
      (payment.currency = "XTR" ∧ MIN_PAYMENT ≤ payment.total_amount ∧
       payment.total_amount ≤ MAX_PAYMENT)) ∧
    ((successful_payment_handler s2 user_id payment now).2.ok = true →
      get_expiry_date (successful_payment_handler s2 user_id payment now).1
          user_id = some (now + PREMIUM_DURATION_DAYS * secondsPerDay) ∧
      (successful_payment_handler s2 user_id payment now).2.expiresAt =
        some (now + PREMIUM_DURATION_DAYS * secondsPerDay)) ∧
    ((successful_payment s3 user_id payment now).2.ok = true ↔
      (payment.currency = "XTR" ∧ MIN_PAYMENT ≤ payment.total_amount ∧
       payment.total_amount ≤ MAX_PAYMENT)) ∧
    ((successful_payment s3 user_id payment now).2.ok = true →
      (successful_payment s3 user_id payment now).1.active_subscriptions
          user_id = some (now + PREMIUM_DURATION_DAYS * secondsPerDay) ∧
      (successful_payment s3 user_id payment now).2.expiresAt =
        some (now + PREMIUM_DURATION_DAYS * secondsPerDay)) := by
  by_cases h : payment.currency = "XTR" ∧ MIN_PAYMENT ≤ payment.total_amount ∧
      payment.total_amount ≤ MAX_PAYMENT
  · simp [successful_payment_handler, successful_payment, h, get_expiry_date,
      activate_premium, add_subscription, record_payment]
  · simp [successful_payment_handler, successful_payment, h]

/-! ## C4 -/

/-- C4: a completed payment that fails validation (currency not `"XTR"` or
amount out of bounds) makes both handlers report `ok = false` with no
`expiresAt`, and leaves the store exactly as it was: every user's expiry
entry and (in 2.x) every payment-history entry are unchanged. -/
theorem C4_rejected_payment_leaves_store (s2 : PaymentManager)
    (s3 : PaymentHandler) (user_id : Nat) (payment : CompletedPayment)
    (now : Nat)
    (h : ¬ (payment.currency = "XTR" ∧ MIN_PAYMENT ≤ payment.total_amount ∧
        payment.total_amount ≤ MAX_PAYMENT)) :
    (successful_payment_handler s2 user_id payment now).2 =
      { ok := false, expiresAt := none } ∧
    (∀ v, get_expiry_date (successful_payment_handler s2 user_id payment now).1 v
      = get_expiry_date s2 v) ∧
    (∀ pid, (successful_payment_handler s2 user_id payment now).1.payment_history
      pid = s2.payment_history pid) ∧
    (successful_payment s3 user_id payment now).2 =
      { ok := false, expiresAt := none } ∧
    (∀ v, (successful_payment s3 user_id payment now).1.active_subscriptions v
      = s3.active_subscriptions v) := by
  simp [successful_payment_handler, successful_payment, h, get_expiry_date]

/-- C4 witness: a completed payment of `10 "USD"` (Scenario D) at time `0`
on empty stores is rejected by both handlers and changes nothing. -/
theorem C4_rejected_payment_witness :
    (successful_payment_handler PaymentManager.init 42
      ⟨10, "USD", "premium_subscription_42_1", "ch_1"⟩ 0).2 =
      { ok := false, expiresAt := none } ∧
    (∀ v, get_expiry_date
      (successful_payment_handler PaymentManager.init 42
        ⟨10, "USD", "premium_subscription_42_1", "ch_1"⟩ 0).1 v
      = get_expiry_date PaymentManager.init v) ∧
    (∀ pid, (successful_payment_handler PaymentManager.init 42
      ⟨10, "USD", "premium_subscription_42_1", "ch_1"⟩ 0).1.payment_history pid
      = PaymentManager.init.payment_history pid) ∧
    (successful_payment PaymentHandler.init 42
      ⟨10, "USD", "premium_subscription_42_1", "ch_1"⟩ 0).2 =
      { ok := false, expiresAt := none } ∧
    (∀ v, (successful_payment PaymentHandler.init 42
      ⟨10, "USD", "premium_subscription_42_1", "ch_1"⟩ 0).1.active_subscriptions
      v = PaymentHandler.init.active_subscriptions v) :=
  C4_rejected_payment_leaves_store PaymentManager.init PaymentHandler.init 42
    ⟨10, "USD", "premium_subscription_42_1", "ch_1"⟩ 0 (by decide)

/-! ## C5 -/

/-- C5: activating user `u` for `d1` days at `t1` and then for `d2` days at
`t2` leaves the stored expiry equal to `t2` plus `d2` days in both
implementations: the second write unconditionally overwrites the first, with
no stacking or extension of the earlier expiry. -/
theorem C5_last_write_wins (s2 : PaymentManager) (s3 : PaymentHandler)
    (u d1 d2 t1 t2 : Nat) (_h1 : 0 < d1) (_h2 : 0 < d2) :
    get_expiry_date
      ((activate_premium ((activate_premium s2 u d1 t1).1) u d2 t2).1) u
      = some (t2 + d2 * secondsPerDay) ∧
    ((add_subscription ((add_subscription s3 u d1 t1).1) u d2 t2).1).active_subscriptions
      u = some (t2 + d2 * secondsPerDay) := by
  simp [activate_premium, add_subscription, get_expiry_date]

/-- C5 witness: activating user `42` for `1` day at time `0` and then for
`2` days at time `50` leaves expiry `50 + 2 * 86400 = 172850` in both
stores. -/
theorem C5_last_write_wins_witness :
    get_expiry_date
      ((activate_premium ((activate_premium PaymentManager.init 42 1 0).1)
        42 2 50).1) 42 = some 172850 ∧
    ((add_subscription ((add_subscription PaymentHandler.init 42 1 0).1)
      42 2 50).1).active_subscriptions 42 = some 172850 :=
  C5_last_write_wins PaymentManager.init PaymentHandler.init 42 1 2 0 50
    (by decide) (by decide)

/-! ## C6 -/

/-- C6: for any duration `d > 0`, activating user `u` at time `now` and
immediately querying at the same time returns active in both
implementations, and the expiry both activations return is strictly later
than `now`. -/
theorem C6_activate_then_active (s2 : PaymentManager) (s3 : PaymentHandler)
    (u d now : Nat) (h : 0 < d) :
    check_premium_status ((activate_premium s2 u d now).1) u now = true ∧
    is_premium_active ((add_subscription s3 u d now).1) u now = true ∧
    now < (activate_premium s2 u d now).2 ∧
    now < (add_subscription s3 u d now).2 := by
  refine ⟨?_, ?_, ?_, ?_⟩ <;>
    simp [check_premium_status, is_premium_active, activate_premium,
      add_subscription, secondsPerDay] <;> omega

/-- C6 witness: activating user `42` for `1` day at time `0` makes the
immediate status query return true in both implementations. -/
theorem C6_activate_then_active_witness :
    check_premium_status ((activate_premium PaymentManager.init 42 1 0).1)
      42 0 = true ∧
    is_premium_active ((add_subscription PaymentHandler.init 42 1 0).1)
      42 0 = true ∧
    (0 : Nat) < (activate_premium PaymentManager.init 42 1 0).2 ∧
    (0 : Nat) < (add_subscription PaymentHandler.init 42 1 0).2 :=
  C6_activate_then_active PaymentManager.init PaymentHandler.init 42 1 0
    (by decide)

/-! ## C7 -/

/-- C7: a user with no entry in the subscription dict is reported inactive
and has no expiry: `check_premium_status` returns false,
`get_expiry_date` returns none, and in 3.x `is_premium_active` returns
false. -/
theorem C7_no_entry_inactive (s2 : PaymentManager) (s3 : PaymentHandler)
    (u now : Nat) (h2 : s2.active_subscriptions u = none)
    (h3 : s3.active_subscriptions u = none) :
    check_premium_status s2 u now = false ∧
    get_expiry_date s2 u = none ∧
    is_premium_active s3 u now = false := by
  simp [check_premium_status, get_expiry_date, is_premium_active, h2, h3]

/-- C7 witness: on the freshly initialised stores, user `42` at time `0`
is inactive with no expiry. -/
theorem C7_no_entry_inactive_witness :
    check_premium_status PaymentManager.init 42 0 = false ∧
    get_expiry_date PaymentManager.init 42 = none ∧
    is_premium_active PaymentHandler.init 42 0 = false :=
  C7_no_entry_inactive PaymentManager.init PaymentHandler.init 42 0 rfl rfl

/-! ## C9 -/

/-- C9: activation is frame-local — activating user `u` leaves every other
user `v ≠ u` with exactly the expiry entry it had before, in both
implementations, and leaves the 2.x `payment_history` dict untouched. -/
theorem C9_activate_frame (s2 : PaymentManager) (s3 : PaymentHandler)
    (u d now v : Nat) (hv : v ≠ u) :
    get_expiry_date ((activate_premium s2 u d now).1) v
      = get_expiry_date s2 v ∧
    (∀ pid, ((activate_premium s2 u d now).1).payment_history pid
      = s2.payment_history pid) ∧
    ((add_subscription s3 u d now).1).active_subscriptions v
      = s3.active_subscriptions v := by
  simp [activate_premium, add_subscription, get_expiry_date, hv]

/-- C9 witness: with user `7` already active until `7 + 2` days, activating
user `42` leaves user `7`'s entry and the payment history unchanged in
both implementations. -/
theorem C9_activate_frame_witness :
    get_expiry_date
      ((activate_premium (activate_premium PaymentManager.init 7 2 5).1
        42 1 0).1) 7
      = get_expiry_date (activate_premium PaymentManager.init 7 2 5).1 7 ∧
    (∀ pid, ((activate_premium (activate_premium PaymentManager.init 7 2 5).1
        42 1 0).1).payment_history pid
      = (activate_premium PaymentManager.init 7 2 5).1.payment_history pid) ∧
    ((add_subscription (add_subscription PaymentHandler.init 7 2 5).1
        42 1 0).1).active_subscriptions 7
      = (add_subscription PaymentHandler.init 7 2 5).1.active_subscriptions 7 :=
  C9_activate_frame (activate_premium PaymentManager.init 7 2 5).1
    (add_subscription PaymentHandler.init 7 2 5).1 42 1 0 7 (by decide)

/-! ## C10 -/

/-- C10: the activity check and the expiry query agree — the status query
returns true iff the stored expiry exists and is strictly later than `now`,
in both implementations; both queries are pure functions of the store and
return no modified state. -/
theorem C10_isActive_iff_future_expiry (s2 : PaymentManager)
    (s3 : PaymentHandler) (u now : Nat) :
    (check_premium_status s2 u now = true ↔
      ∃ e, get_expiry_date s2 u = some e ∧ now < e) ∧
    (is_premium_active s3 u now = true ↔
      ∃ e, s3.active_subscriptions u = some e ∧ now < e) := by
  constructor
  · cases h : s2.active_subscriptions u <;>
      simp [check_premium_status, get_expiry_date, h]
  · cases h : s3.active_subscriptions u <;> simp [is_premium_active, h]
